import Mathlib

/-!
Shallow embedding of the MOOSE heat-conduction material `GapConductance`
(src/modules/heat_conduction/src/materials/GapConductance.C) and proofs of
the specification claims about it.

C++ `Real` (double) is modelled as `ℝ`; `Point` (libMesh point with three
components) as a structure of three reals.  Per-quadrature-point member
state read by the evaluation functions is gathered into `QpState`; the three
per-point output material properties are gathered into `QpOutputs`, with the
gap thermal conductivity an `Option ℝ` recording whether the property was
written at this point.  Fatal `mooseError` calls become `Except` errors.
-/

namespace GapCond

/-- libMesh-style 3-component point. -/
structure Point where
  x : ℝ
  y : ℝ
  z : ℝ

/-- Component-wise difference of points (`p - q`). -/
def Point.sub (p q : Point) : Point := ⟨p.x - q.x, p.y - q.y, p.z - q.z⟩

/-- Component-wise sum of points (`p + q`). -/
def Point.add (p q : Point) : Point := ⟨p.x + q.x, p.y + q.y, p.z + q.z⟩

/-- Scalar multiple of a point (`t * p`). -/
def Point.smul (t : ℝ) (p : Point) : Point := ⟨t * p.x, t * p.y, t * p.z⟩

/-- Division of a point by a scalar (`p /= t`). -/
noncomputable def Point.div (p : Point) (t : ℝ) : Point := ⟨p.x / t, p.y / t, p.z / t⟩

/-- Dot product (libMesh `operator*` on points). -/
def Point.dot (p q : Point) : ℝ := p.x * q.x + p.y * q.y + p.z * q.z

/-- libMesh `norm_sq`: squared Euclidean norm. -/
def Point.normSq (p : Point) : ℝ := p.x * p.x + p.y * p.y + p.z * p.z

/-- libMesh `norm`: Euclidean norm. -/
noncomputable def Point.norm (p : Point) : ℝ := Real.sqrt p.normSq

/-- `GapConductance::GAP_GEOMETRY` enum. -/
inductive GAP_GEOMETRY where
  | PLATE
  | CYLINDER
  | SPHERE
deriving DecidableEq

/-- `Moose::CoordinateSystemType` (the three values this material handles). -/
inductive CoordinateSystemType where
  | COORD_XYZ
  | COORD_RZ
  | COORD_RSPHERICAL
deriving DecidableEq

/-- Which `mooseError` fired inside `setGapGeometryParameters`. -/
inductive ConfigError where
  | plateWithSphericalCoords
  | cylinderAxisPointsMissing
  | cylinderAxisPointsWithRZ
  | cylinderWithSphericalCoords
  | sphereOriginMissing
  | sphereOriginWithSpherical
deriving DecidableEq

/-- Which `mooseError` fired inside `computeGapRadii`. -/
inductive GeometryError where
  | cylindricalNormals
  | sphericalNormals
deriving DecidableEq

/-- The geometry-related user parameters consumed by `setGapGeometryParameters`:
`none` models a parameter that was not set by the user / is not valid. -/
structure GeomParams where
  gap_geometry_type : Option GAP_GEOMETRY
  cylinder_axis_point_1 : Option Point
  cylinder_axis_point_2 : Option Point
  sphere_origin : Option Point

/-- First block of `setGapGeometryParameters`: the geometry type used is the
user-selected one when `gap_geometry_type` was set, else it defaults from the
coordinate system (XYZ to PLATE, RZ to CYLINDER, RSPHERICAL to SPHERE). -/
def resolveGeometryType (params : GeomParams) (coord_sys : CoordinateSystemType) :
    GAP_GEOMETRY :=
  match params.gap_geometry_type with
  | some g => g
  | none =>
    match coord_sys with
    | .COORD_XYZ => .PLATE
    | .COORD_RZ => .CYLINDER
    | .COORD_RSPHERICAL => .SPHERE

/-- `GapConductance::setGapGeometryParameters`: validates the geometry type
against the coordinate system and produces the resolved geometry type together
with the points `p1`, `p2`; the incoming `p1`, `p2` are the current member
values, left untouched on branches that do not assign them. -/
def setGapGeometryParameters (params : GeomParams) (coord_sys : CoordinateSystemType)
    (p1 p2 : Point) : Except ConfigError (GAP_GEOMETRY × Point × Point) :=
  let gap_geometry_type := resolveGeometryType params coord_sys
  match gap_geometry_type with
  | .PLATE =>
    if coord_sys = .COORD_RSPHERICAL then
      .error .plateWithSphericalCoords
    else
      .ok (gap_geometry_type, p1, p2)
  | .CYLINDER =>
    match coord_sys with
    | .COORD_XYZ =>
      match params.cylinder_axis_point_1, params.cylinder_axis_point_2 with
      | some q1, some q2 => .ok (gap_geometry_type, q1, q2)
      | _, _ => .error .cylinderAxisPointsMissing
    | .COORD_RZ =>
      if params.cylinder_axis_point_1.isSome ∨ params.cylinder_axis_point_2.isSome then
        .error .cylinderAxisPointsWithRZ
      else
        .ok (gap_geometry_type, ⟨0, 0, 0⟩, ⟨0, 1, 0⟩)
    | .COORD_RSPHERICAL => .error .cylinderWithSphericalCoords
  | .SPHERE =>
    match coord_sys with
    | .COORD_XYZ | .COORD_RZ =>
      match params.sphere_origin with
      | some origin => .ok (gap_geometry_type, origin, p2)
      | none => .error .sphereOriginMissing
    | .COORD_RSPHERICAL =>
      if params.sphere_origin.isSome then
        .error .sphereOriginWithSpherical
      else
        .ok (gap_geometry_type, ⟨0, 0, 0⟩, p2)

/-- Nearest point to `current_point` on the cylinder axis through `p1`, `p2`
(the point `p` in `computeGapRadii`). -/
noncomputable def cylClosestAxisPoint (current_point p1 p2 : Point) : Point :=
  let p2p1 := Point.sub p2 p1
  let p1pc := Point.sub p1 current_point
  let t := -(Point.dot p1pc p2p1) / Point.normSq p2p1
  Point.add p1 (Point.smul t p2p1)

/-- `rad` in the CYLINDER branch of `computeGapRadii`: distance from the
current point to the cylinder axis. -/
noncomputable def cylRad (current_point p1 p2 : Point) : ℝ :=
  Point.norm (Point.sub current_point (cylClosestAxisPoint current_point p1 p2))

/-- `rad_dot_norm` in the CYLINDER branch of `computeGapRadii`: dot product of
the normalized radial vector with the surface normal. -/
noncomputable def cylRadDotNorm (current_point p1 p2 current_normal : Point) : ℝ :=
  Point.dot
    (Point.div (Point.sub current_point (cylClosestAxisPoint current_point p1 p2))
      (cylRad current_point p1 p2))
    current_normal

/-- `normal_dot` in the SPHERE branch of `computeGapRadii`. -/
def sphereNormalDot (current_point p1 current_normal : Point) : ℝ :=
  Point.dot (Point.sub current_point p1) current_normal

/-- `curr_point_radius` in the SPHERE branch of `computeGapRadii`. -/
noncomputable def sphereCurrPointRadius (current_point p1 : Point) : ℝ :=
  Point.norm (Point.sub current_point p1)

/-- `GapConductance::computeGapRadii`: produces `(r1, r2, radius)`, or a
`GeometryError` when the radial direction is exactly perpendicular to the
surface normal (CYLINDER/SPHERE only). -/
noncomputable def computeGapRadii (gap_geometry_type : GAP_GEOMETRY)
    (current_point p1 p2 : Point) (gap_distance : ℝ) (current_normal : Point) :
    Except GeometryError (ℝ × ℝ × ℝ) :=
  match gap_geometry_type with
  | .CYLINDER =>
    let rad := cylRad current_point p1 p2
    let rad_dot_norm := cylRadDotNorm current_point p1 p2 current_normal
    if rad_dot_norm > 0 then
      .ok (rad, rad - gap_distance, rad)
    else if rad_dot_norm < 0 then
      .ok (rad + gap_distance, rad, rad)
    else
      .error .cylindricalNormals
  | .SPHERE =>
    let normal_dot := sphereNormalDot current_point p1 current_normal
    let curr_point_radius := sphereCurrPointRadius current_point p1
    if normal_dot > 0 then
      .ok (curr_point_radius, curr_point_radius - gap_distance, curr_point_radius)
    else if normal_dot < 0 then
      .ok (curr_point_radius + gap_distance, curr_point_radius, curr_point_radius)
    else
      .error .sphericalNormals
  | .PLATE => .ok (0, -gap_distance, 0)

/-- `GapConductance::gapRect`. -/
def gapRect (distance min_gap max_gap : ℝ) : ℝ :=
  max min_gap (min distance max_gap)

/-- `GapConductance::gapCyl`. -/
noncomputable def gapCyl (radius r1 r2 min_denom max_denom : ℝ) : ℝ :=
  max min_denom (min (radius * Real.log (r2 / r1)) max_denom)

/-- `GapConductance::gapSphere`. -/
noncomputable def gapSphere (radius r1 r2 min_denom max_denom : ℝ) : ℝ :=
  max min_denom (min (radius ^ 2 * ((1 / r1) - (1 / r2))) max_denom)

/-- `GapConductance::gapLength`. -/
noncomputable def gapLength (gap_geom : GAP_GEOMETRY) (radius r1 r2 min_gap max_gap : ℝ) :
    ℝ :=
  if gap_geom = .CYLINDER then gapCyl radius r1 r2 min_gap max_gap
  else if gap_geom = .SPHERE then gapSphere radius r1 r2 min_gap max_gap
  else gapRect (r2 - r1) min_gap max_gap

/-- `_emissivity` member initializer in the `GapConductance` constructor:
`1/e1 + 1/e2 - 1` when both emissivities are nonzero, else `0`. -/
noncomputable def emissivityInit (emissivity_1 emissivity_2 : ℝ) : ℝ :=
  if emissivity_1 ≠ 0 ∧ emissivity_2 ≠ 0 then
    1 / emissivity_1 + 1 / emissivity_2 - 1
  else 0

/-- `GapConductance::h_radiation` as a function of the member fields it reads. -/
noncomputable def h_radiation (stefan_boltzmann emissivity temp gap_temp : ℝ) : ℝ :=
  if emissivity = 0 then 0
  else
    stefan_boltzmann * ((temp * temp + gap_temp * gap_temp) * (temp + gap_temp)) /
      emissivity

/-- `GapConductance::dh_radiation` as a function of the member fields it reads. -/
noncomputable def dh_radiation (stefan_boltzmann emissivity temp gap_temp : ℝ) : ℝ :=
  if emissivity = 0 then 0
  else
    stefan_boltzmann * (3 * temp * temp + gap_temp * (2 * temp + gap_temp)) /
      emissivity

/-- Per-quadrature-point member state read by `computeQpConductance` and the
helpers it calls. -/
structure QpState where
  gap_geometry_type : GAP_GEOMETRY
  has_info : Bool
  temp : ℝ
  gap_temp : ℝ
  radius : ℝ
  r1 : ℝ
  r2 : ℝ
  stefan_boltzmann : ℝ
  emissivity : ℝ
  min_gap : ℝ
  max_gap : ℝ
  gap_conductivity : ℝ
  gap_conductivity_function : Option (ℝ → Point → ℝ)
  gap_conductivity_function_variable : Option ℝ
  t : ℝ
  q_point : Point

/-- `GapConductance::gapK`: base conductivity, multiplied by the scaling
function evaluated at the coupled variable value (if coupled) or at the
current time, at the current point. -/
noncomputable def gapK (s : QpState) : ℝ :=
  match s.gap_conductivity_function with
  | none => s.gap_conductivity
  | some f =>
    match s.gap_conductivity_function_variable with
    | some v => s.gap_conductivity * f v s.q_point
    | none => s.gap_conductivity * f s.t s.q_point

/-- `GapConductance::h_conduction`: returns the value written to the
`gap_conductivity` material property together with the conduction term. -/
noncomputable def h_conduction (s : QpState) : ℝ × ℝ :=
  let k := gapK s
  (k, k / gapLength s.gap_geometry_type s.radius s.r1 s.r2 s.min_gap s.max_gap)

/-- `GapConductance::dh_conduction`. -/
def dh_conduction (_s : QpState) : ℝ := 0.0

/-- The three per-point output material properties written by one call of
`computeQpConductance`; `gap_thermal_conductivity = none` records that the
`gap_conductivity` property was not written for this point. -/
structure QpOutputs where
  gap_conductance : ℝ
  gap_conductance_dT : ℝ
  gap_thermal_conductivity : Option ℝ

/-- `GapConductance::computeQpConductance`. -/
noncomputable def computeQpConductance (s : QpState) : QpOutputs :=
  if s.has_info then
    let hc := h_conduction s
    { gap_conductance := hc.2 + h_radiation s.stefan_boltzmann s.emissivity s.temp s.gap_temp
      gap_conductance_dT := dh_conduction s
      gap_thermal_conductivity := some hc.1 }
  else
    { gap_conductance := 0
      gap_conductance_dT := 0
      gap_thermal_conductivity := none }

/-- The penetration-search result consumed in quadrature mode: signed distance,
handle of the matched (slave) side element, and the shape-function values
`_side_phi[i][0]` at the single evaluation point. -/
structure PenetrationInfo where
  distance : ℝ
  side : ℕ
  side_phi : List ℝ

/-- The values produced by `computeGapValues` for one point, together with the
warning (unmatched node id, processor id, node coordinates) when one was
emitted. -/
structure GapValues where
  gap_temp : ℝ
  gap_distance : ℝ
  has_info : Bool
  warning : Option (ℕ × ℕ × Point)

/-- The interpolation loop of `computeGapValues`: sum over the opposing
element's dof indices of shape-function value times current solution value. -/
noncomputable def gapTempSum (pinfo : PenetrationInfo) (dofIndices : ℕ → List ℕ)
    (solution : ℕ → ℝ) : ℝ :=
  ((pinfo.side_phi.zip (dofIndices pinfo.side)).map fun wi => wi.1 * solution wi.2).sum

/-- `GapConductance::computeGapValues` (value-resolution part; the radii are
computed afterwards by `computeGapRadii`).  In node-based mode the coupled
field values are taken directly; in quadrature mode the penetration-search
result decides everything. -/
noncomputable def computeGapValues (quadrature warnings : Bool)
    (gap_temp_value gap_distance_value : ℝ) (qnode_id processor_id : ℕ)
    (qnode_point : Point) (pinfo : Option PenetrationInfo) (dofIndices : ℕ → List ℕ)
    (solution : ℕ → ℝ) : GapValues :=
  if !quadrature then
    { gap_temp := gap_temp_value
      gap_distance := gap_distance_value
      has_info := true
      warning := none }
  else
    match pinfo with
    | some info =>
      { gap_temp := gapTempSum info dofIndices solution
        gap_distance := info.distance
        has_info := true
        warning := none }
    | none =>
      { gap_temp := 0.0
        gap_distance := 88888
        has_info := false
        warning := if warnings then some (qnode_id, processor_id, qnode_point) else none }

/-- The range-check expression `min_gap>=0` attached to the `min_gap`
parameter in `GapConductance::actionParameters`; a parameter value violating
it is rejected at setup. -/
def min_gap_range_check (min_gap : ℝ) : Prop := min_gap ≥ 0

/-- The range-check expression `max_gap>=0` attached to the `max_gap`
parameter in `GapConductance::actionParameters`. -/
def max_gap_range_check (max_gap : ℝ) : Prop := max_gap ≥ 0

/-- The origin point. -/
def pOrigin : Point := ⟨0, 0, 0⟩

/-- A concrete per-point state with contact information
(`has_info = true`, PLATE geometry, nonzero emissivity factor). -/
def sInfo : QpState where
  gap_geometry_type := .PLATE
  has_info := true
  temp := 1
  gap_temp := 0
  radius := 0
  r1 := 0
  r2 := 1
  stefan_boltzmann := 1
  emissivity := 1
  min_gap := 0
  max_gap := 2
  gap_conductivity := 1
  gap_conductivity_function := none
  gap_conductivity_function_variable := none
  t := 0
  q_point := ⟨0, 0, 0⟩

/-- A concrete per-point state without contact information (`has_info = false`). -/
def sNoInfo : QpState where
  gap_geometry_type := .CYLINDER
  has_info := false
  temp := 3
  gap_temp := 5
  radius := 1
  r1 := 1
  r2 := 2
  stefan_boltzmann := 1
  emissivity := 1
  min_gap := 0
  max_gap := 2
  gap_conductivity := 1
  gap_conductivity_function := none
  gap_conductivity_function_variable := none
  t := 0
  q_point := ⟨0, 0, 0⟩

/-! ## Theorems for the claims -/

/-- Claim C2: for every evaluation point where the gap-value resolution
reported `has_info = false`, both the conductance output and the derivative
output are exactly 0, independent of geometry type, temperatures, and all
other fields of the state. -/
theorem computeQpConductance_no_info (s : QpState) (h : s.has_info = false) :
    (computeQpConductance s).gap_conductance = 0 ∧
    (computeQpConductance s).gap_conductance_dT = 0 := by
  simp [computeQpConductance, h]

/-- Witness for C2 at a concrete no-contact state. -/
theorem computeQpConductance_no_info_witness :
    sNoInfo.has_info = false ∧
    (computeQpConductance sNoInfo).gap_conductance = 0 ∧
    (computeQpConductance sNoInfo).gap_conductance_dT = 0 :=
  ⟨rfl, computeQpConductance_no_info sNoInfo rfl⟩

/-- Claim C10: the gap thermal-conductivity output property is written (to the
effective conductivity `gapK`, that is the base conductivity times the
optional scaling-function value) exactly when `has_info` is true; when
`has_info` is false that property is not written even though the conductance
and derivative outputs are still written (to 0). -/
theorem gap_thermal_conductivity_frame (s : QpState) :
    ((computeQpConductance s).gap_thermal_conductivity = some (gapK s) ↔
      s.has_info = true) ∧
    (s.has_info = false →
      (computeQpConductance s).gap_thermal_conductivity = none ∧
      (computeQpConductance s).gap_conductance = 0 ∧
      (computeQpConductance s).gap_conductance_dT = 0) ∧
    (s.gap_conductivity_function = none → gapK s = s.gap_conductivity) ∧
    (∀ f, s.gap_conductivity_function = some f →
      gapK s = s.gap_conductivity *
        f (s.gap_conductivity_function_variable.getD s.t) s.q_point) := by
  refine ⟨?_, ?_, ?_, ?_⟩
  · cases hi : s.has_info <;> simp [computeQpConductance, h_conduction, hi]
  · intro h
    simp [computeQpConductance, h]
  · intro h
    simp [gapK, h]
  · intro f hf
    cases hv : s.gap_conductivity_function_variable <;> simp [gapK, hf, hv]

/-- Witness for C10 at a concrete no-contact state. -/
theorem gap_thermal_conductivity_frame_witness :
    (computeQpConductance sNoInfo).gap_thermal_conductivity = none :=
  ((gap_thermal_conductivity_frame sNoInfo).2.1 rfl).1

/-- Claim C7 counterexample: with `min_gap = 2 > 1 = max_gap` the clamped
value 2 is not in the interval `[2, 1]` (which is empty), so the claim fails
for arbitrary `min_gap`, `max_gap`. -/
theorem gapRect_interval_counterexample :
    gapRect 0 2 1 = 2 ∧ ¬ gapRect 0 2 1 ∈ Set.Icc (2 : ℝ) 1 := by
  constructor
  · norm_num [gapRect]
  · norm_num [gapRect, Set.mem_Icc]

/-- Claim C7 (amended): when `min_gap ≤ max_gap`, the clamp lands in
`[min_gap, max_gap]`; the clamp is idempotent for all `min_gap`, `max_gap`. -/
theorem gapRect_clamp_spec (L min_gap max_gap : ℝ) :
    (min_gap ≤ max_gap →
      min_gap ≤ gapRect L min_gap max_gap ∧ gapRect L min_gap max_gap ≤ max_gap) ∧
    gapRect (gapRect L min_gap max_gap) min_gap max_gap = gapRect L min_gap max_gap := by
  constructor
  · intro h
    exact ⟨le_max_left _ _, max_le h (min_le_right _ _)⟩
  · unfold gapRect
    rcases le_total min_gap (min L max_gap) with h | h
    · rw [max_eq_right h, min_eq_left (min_le_right L max_gap)]
      exact max_eq_right h
    · rw [max_eq_left h]
      rcases le_total min_gap max_gap with h2 | h2
      · rw [min_eq_left h2, max_self]
      · rw [min_eq_right h2]
        exact max_eq_left h2

/-- Witness for C7 (amended) at `L = 5`, `min_gap = 0`, `max_gap = 1`. -/
theorem gapRect_clamp_spec_witness :
    (0 : ℝ) ≤ 1 ∧ ((0 : ℝ) ≤ gapRect 5 0 1 ∧ gapRect 5 0 1 ≤ 1) :=
  ⟨by norm_num, (gapRect_clamp_spec 5 0 1).1 (by norm_num)⟩

/-- Claim C9 counterexample: `min_gap = -1` satisfies `min_gap ≤ 0` yet
violates the declared range check `min_gap>=0`, so setup rejects it. -/
theorem min_gap_range_check_counterexample :
    (-1 : ℝ) ≤ 0 ∧ ¬ min_gap_range_check (-1) := by
  constructor
  · norm_num
  · simp [min_gap_range_check]

/-- Claim C9 (amended): `min_gap = 0` passes the configuration range check
`min_gap>=0`, but every strictly negative `min_gap` is rejected by it. -/
theorem min_gap_zero_accepted_spec :
    min_gap_range_check 0 ∧ ∀ g : ℝ, g < 0 → ¬ min_gap_range_check g := by
  constructor
  · simp [min_gap_range_check]
  · intro g hg h
    simp only [min_gap_range_check, ge_iff_le] at h
    exact absurd h (not_le.mpr hg)

/-- Witness for C9 (amended) at `min_gap = -2`. -/
theorem min_gap_zero_accepted_spec_witness :
    (-2 : ℝ) < 0 ∧ ¬ min_gap_range_check (-2) :=
  ⟨by norm_num, min_gap_zero_accepted_spec.2 (-2) (by norm_num)⟩

/-- Claim C1 counterexample: at a contact point with `sigma = 1`, `Fe = 1`,
`T = 1`, `Tg = 0`, the derivative output is 0 while
`dh_conduction + dh_radiation = 3`: the code never adds `dh_radiation` to the
derivative output. -/
theorem gap_conductance_dT_counterexample :
    (computeQpConductance sInfo).gap_conductance_dT ≠
      dh_conduction sInfo +
        dh_radiation sInfo.stefan_boltzmann sInfo.emissivity sInfo.temp
          sInfo.gap_temp := by
  norm_num [computeQpConductance, dh_conduction, dh_radiation, sInfo]

/-- Claim C1 (amended): for every evaluation point with `has_info` true, the
derivative output equals `dh_conduction` alone, which is exactly 0;
`dh_radiation` computes `sigma * (3*T^2 + Tg*(2*T + Tg)) / Fe` when `Fe ≠ 0`
and 0 when `Fe = 0`, but it is not added to the derivative output. -/
theorem gap_conductance_dT_spec (s : QpState) (h : s.has_info = true) :
    (computeQpConductance s).gap_conductance_dT = dh_conduction s ∧
    dh_conduction s = 0 ∧
    (s.emissivity ≠ 0 →
      dh_radiation s.stefan_boltzmann s.emissivity s.temp s.gap_temp =
        s.stefan_boltzmann *
          (3 * s.temp * s.temp + s.gap_temp * (2 * s.temp + s.gap_temp)) /
            s.emissivity) ∧
    (s.emissivity = 0 →
      dh_radiation s.stefan_boltzmann s.emissivity s.temp s.gap_temp = 0) := by
  refine ⟨by simp [computeQpConductance, h], by norm_num [dh_conduction], ?_, ?_⟩
  · intro he
    simp [dh_radiation, he]
  · intro he
    simp [dh_radiation, he]

/-- Witness for C1 (amended) at a concrete contact state. -/
theorem gap_conductance_dT_spec_witness :
    (computeQpConductance sInfo).gap_conductance_dT = 0 := by
  have h := gap_conductance_dT_spec sInfo rfl
  rw [h.1, h.2.1]

/-- Claim C3: under the declared ranges `0 ≤ e ≤ 1`, if either emissivity is 0
the combined factor `Fe` is 0 and both `h_radiation` and `dh_radiation` are
exactly 0 regardless of the temperatures; otherwise `Fe = 1/e1 + 1/e2 - 1` and
`h_radiation = sigma * (T^2 + Tg^2) * (T + Tg) / Fe`. -/
theorem radiation_emissivity_spec (e1 e2 sigma T Tg : ℝ)
    (h10 : 0 ≤ e1) (h11 : e1 ≤ 1) (h20 : 0 ≤ e2) (h21 : e2 ≤ 1) :
    ((e1 = 0 ∨ e2 = 0) →
      emissivityInit e1 e2 = 0 ∧
      h_radiation sigma (emissivityInit e1 e2) T Tg = 0 ∧
      dh_radiation sigma (emissivityInit e1 e2) T Tg = 0) ∧
    (e1 ≠ 0 → e2 ≠ 0 →
      emissivityInit e1 e2 = 1 / e1 + 1 / e2 - 1 ∧
      h_radiation sigma (emissivityInit e1 e2) T Tg =
        sigma * ((T * T + Tg * Tg) * (T + Tg)) / (1 / e1 + 1 / e2 - 1)) := by
  constructor
  · intro h0
    have hF : emissivityInit e1 e2 = 0 := by
      unfold emissivityInit
      rcases h0 with h | h <;> simp [h]
    exact ⟨hF, by simp [h_radiation, hF], by simp [dh_radiation, hF]⟩
  · intro h1 h2
    have hF : emissivityInit e1 e2 = 1 / e1 + 1 / e2 - 1 := by
      unfold emissivityInit
      simp [h1, h2]
    have he1 : (1 : ℝ) ≤ 1 / e1 := by
      have hpos : 0 < e1 := lt_of_le_of_ne h10 (Ne.symm h1)
      calc (1 : ℝ) = 1 / 1 := by norm_num
      _ ≤ 1 / e1 := one_div_le_one_div_of_le hpos h11
    have he2 : (1 : ℝ) ≤ 1 / e2 := by
      have hpos : 0 < e2 := lt_of_le_of_ne h20 (Ne.symm h2)
      calc (1 : ℝ) = 1 / 1 := by norm_num
      _ ≤ 1 / e2 := one_div_le_one_div_of_le hpos h21
    have hne : 1 / e1 + 1 / e2 - 1 ≠ 0 := by
      have : (0 : ℝ) < 1 / e1 + 1 / e2 - 1 := by linarith
      exact ne_of_gt this
    refine ⟨hF, ?_⟩
    unfold h_radiation
    rw [hF, if_neg hne]

/-- Witness for C3 at `e1 = e2 = 1/2`, `sigma = 1`, `T = 5`, `Tg = 3`. -/
theorem radiation_emissivity_spec_witness :
    emissivityInit (1 / 2) (1 / 2) = 1 / (1 / 2 : ℝ) + 1 / (1 / 2) - 1 ∧
    h_radiation 1 (emissivityInit (1 / 2) (1 / 2)) 5 3 =
      1 * ((5 * 5 + 3 * 3) * (5 + 3)) / (1 / (1 / 2 : ℝ) + 1 / (1 / 2) - 1) :=
  (radiation_emissivity_spec (1 / 2) (1 / 2) 1 5 3 (by norm_num) (by norm_num)
    (by norm_num) (by norm_num)).2 (by norm_num) (by norm_num)

/-- Claim C6: the effective gap length is the clamped raw length for each
geometry (PLATE: `r2 - r1`; CYLINDER: `radius * ln(r2/r1)`; SPHERE:
`radius^2 * (1/r1 - 1/r2)`), and at a contact point the conductance output is
the effective conductivity divided by this length plus the radiation term. -/
theorem gap_conductance_value_spec (s : QpState) (h : s.has_info = true)
    (radius r1 r2 min_gap max_gap : ℝ) :
    (computeQpConductance s).gap_conductance =
      gapK s / gapLength s.gap_geometry_type s.radius s.r1 s.r2 s.min_gap s.max_gap +
        h_radiation s.stefan_boltzmann s.emissivity s.temp s.gap_temp ∧
    gapLength .PLATE radius r1 r2 min_gap max_gap =
      max min_gap (min (r2 - r1) max_gap) ∧
    gapLength .CYLINDER radius r1 r2 min_gap max_gap =
      max min_gap (min (radius * Real.log (r2 / r1)) max_gap) ∧
    gapLength .SPHERE radius r1 r2 min_gap max_gap =
      max min_gap (min (radius ^ 2 * (1 / r1 - 1 / r2)) max_gap) := by
  refine ⟨by simp [computeQpConductance, h, h_conduction], ?_, ?_, ?_⟩ <;>
    simp [gapLength, gapRect, gapCyl, gapSphere]

/-- Witness for C6 at a concrete contact state. -/
theorem gap_conductance_value_spec_witness :
    (computeQpConductance sInfo).gap_conductance =
      gapK sInfo /
          gapLength sInfo.gap_geometry_type sInfo.radius sInfo.r1 sInfo.r2
            sInfo.min_gap sInfo.max_gap +
        h_radiation sInfo.stefan_boltzmann sInfo.emissivity sInfo.temp
          sInfo.gap_temp :=
  (gap_conductance_value_spec sInfo rfl 0 0 0 0 0).1

/-- Claim C4: geometry-parameter resolution defaults the geometry type by
coordinate system when unset (XYZ to PLATE, RZ to CYLINDER, RSPHERICAL to
SPHERE) and accepts exactly the enumerated combinations: PLATE fails under
RSPHERICAL; CYLINDER under XYZ needs both axis points, under RZ forbids them
(axis fixed to the line through (0,0,0) and (0,1,0)) and fails under
RSPHERICAL; SPHERE under XYZ/RZ needs an origin, and under RSPHERICAL forbids
one (origin fixed at (0,0,0)). -/
theorem setGapGeometryParameters_spec (gp : GeomParams) (cs : CoordinateSystemType)
    (p1 p2 : Point) :
    (gp.gap_geometry_type = none →
      resolveGeometryType gp .COORD_XYZ = .PLATE ∧
      resolveGeometryType gp .COORD_RZ = .CYLINDER ∧
      resolveGeometryType gp .COORD_RSPHERICAL = .SPHERE) ∧
    (resolveGeometryType gp cs = .PLATE → cs = .COORD_RSPHERICAL →
      setGapGeometryParameters gp cs p1 p2 = .error .plateWithSphericalCoords) ∧
    (resolveGeometryType gp cs = .PLATE → cs ≠ .COORD_RSPHERICAL →
      setGapGeometryParameters gp cs p1 p2 = .ok (.PLATE, p1, p2)) ∧
    (resolveGeometryType gp cs = .CYLINDER → cs = .COORD_XYZ →
      (gp.cylinder_axis_point_1 = none ∨ gp.cylinder_axis_point_2 = none) →
      setGapGeometryParameters gp cs p1 p2 = .error .cylinderAxisPointsMissing) ∧
    (resolveGeometryType gp cs = .CYLINDER → cs = .COORD_XYZ →
      ∀ q1 q2, gp.cylinder_axis_point_1 = some q1 → gp.cylinder_axis_point_2 = some q2 →
      setGapGeometryParameters gp cs p1 p2 = .ok (.CYLINDER, q1, q2)) ∧
    (resolveGeometryType gp cs = .CYLINDER → cs = .COORD_RZ →
      (gp.cylinder_axis_point_1.isSome ∨ gp.cylinder_axis_point_2.isSome) →
      setGapGeometryParameters gp cs p1 p2 = .error .cylinderAxisPointsWithRZ) ∧
    (resolveGeometryType gp cs = .CYLINDER → cs = .COORD_RZ →
      gp.cylinder_axis_point_1 = none → gp.cylinder_axis_point_2 = none →
      setGapGeometryParameters gp cs p1 p2 = .ok (.CYLINDER, ⟨0, 0, 0⟩, ⟨0, 1, 0⟩)) ∧
    (resolveGeometryType gp cs = .CYLINDER → cs = .COORD_RSPHERICAL →
      setGapGeometryParameters gp cs p1 p2 = .error .cylinderWithSphericalCoords) ∧
    (resolveGeometryType gp cs = .SPHERE → cs ≠ .COORD_RSPHERICAL →
      gp.sphere_origin = none →
      setGapGeometryParameters gp cs p1 p2 = .error .sphereOriginMissing) ∧
    (resolveGeometryType gp cs = .SPHERE → cs ≠ .COORD_RSPHERICAL →
      ∀ origin, gp.sphere_origin = some origin →
      setGapGeometryParameters gp cs p1 p2 = .ok (.SPHERE, origin, p2)) ∧
    (resolveGeometryType gp cs = .SPHERE → cs = .COORD_RSPHERICAL →
      gp.sphere_origin.isSome →
      setGapGeometryParameters gp cs p1 p2 = .error .sphereOriginWithSpherical) ∧
    (resolveGeometryType gp cs = .SPHERE → cs = .COORD_RSPHERICAL →
      gp.sphere_origin = none →
      setGapGeometryParameters gp cs p1 p2 = .ok (.SPHERE, ⟨0, 0, 0⟩, p2)) := by
  refine ⟨?_, ?_, ?_, ?_, ?_, ?_, ?_, ?_, ?_, ?_, ?_, ?_⟩
  · intro h
    refine ⟨?_, ?_, ?_⟩ <;> simp [resolveGeometryType, h]
  · intro hg hcs
    subst hcs
    simp [setGapGeometryParameters, hg]
  · intro hg hcs
    cases cs with
    | COORD_RSPHERICAL => exact absurd rfl hcs
    | COORD_XYZ => simp [setGapGeometryParameters, hg]
    | COORD_RZ => simp [setGapGeometryParameters, hg]
  · intro hg hcs hmissing
    subst hcs
    rcases hmissing with h | h
    · simp [setGapGeometryParameters, hg, h]
    · cases h1 : gp.cylinder_axis_point_1 <;>
        simp [setGapGeometryParameters, hg, h, h1]
  · intro hg hcs q1 q2 h1 h2
    subst hcs
    simp [setGapGeometryParameters, hg, h1, h2]
  · intro hg hcs hsome
    subst hcs
    simp only [setGapGeometryParameters, hg]
    rw [if_pos hsome]
  · intro hg hcs h1 h2
    subst hcs
    simp [setGapGeometryParameters, hg, h1, h2]
  · intro hg hcs
    subst hcs
    simp [setGapGeometryParameters, hg]
  · intro hg hcs ho
    cases cs with
    | COORD_RSPHERICAL => exact absurd rfl hcs
    | COORD_XYZ => simp [setGapGeometryParameters, hg, ho]
    | COORD_RZ => simp [setGapGeometryParameters, hg, ho]
  · intro hg hcs origin ho
    cases cs with
    | COORD_RSPHERICAL => exact absurd rfl hcs
    | COORD_XYZ => simp [setGapGeometryParameters, hg, ho]
    | COORD_RZ => simp [setGapGeometryParameters, hg, ho]
  · intro hg hcs hsome
    subst hcs
    simp only [setGapGeometryParameters, hg]
    rw [if_pos hsome]
  · intro hg hcs ho
    subst hcs
    simp [setGapGeometryParameters, hg, ho]

/-- Witness for C4: with no user geometry parameters under Cartesian
coordinates, the resolution defaults to PLATE and accepts. -/
theorem setGapGeometryParameters_spec_witness :
    setGapGeometryParameters ⟨none, none, none, none⟩ .COORD_XYZ pOrigin pOrigin =
      .ok (.PLATE, pOrigin, pOrigin) :=
  (setGapGeometryParameters_spec ⟨none, none, none, none⟩ .COORD_XYZ
    pOrigin pOrigin).2.2.1 rfl (by simp)

/-- Claim C5: for CYLINDER and SPHERE geometry a radial-direction/normal dot
product of exactly 0 makes `computeGapRadii` fail with a geometry error and
produce no radii; a strictly positive dot product yields
`(r1, r2, radius) = (rad, rad - gap_distance, rad)` and a strictly negative
one yields `(rad + gap_distance, rad, rad)`. -/
theorem computeGapRadii_spec (current_point p1 p2 current_normal : Point)
    (gap_distance : ℝ) :
    (cylRadDotNorm current_point p1 p2 current_normal = 0 →
      computeGapRadii .CYLINDER current_point p1 p2 gap_distance current_normal =
        .error .cylindricalNormals) ∧
    (cylRadDotNorm current_point p1 p2 current_normal > 0 →
      computeGapRadii .CYLINDER current_point p1 p2 gap_distance current_normal =
        .ok (cylRad current_point p1 p2, cylRad current_point p1 p2 - gap_distance,
          cylRad current_point p1 p2)) ∧
    (cylRadDotNorm current_point p1 p2 current_normal < 0 →
      computeGapRadii .CYLINDER current_point p1 p2 gap_distance current_normal =
        .ok (cylRad current_point p1 p2 + gap_distance, cylRad current_point p1 p2,
          cylRad current_point p1 p2)) ∧
    (sphereNormalDot current_point p1 current_normal = 0 →
      computeGapRadii .SPHERE current_point p1 p2 gap_distance current_normal =
        .error .sphericalNormals) ∧
    (sphereNormalDot current_point p1 current_normal > 0 →
      computeGapRadii .SPHERE current_point p1 p2 gap_distance current_normal =
        .ok (sphereCurrPointRadius current_point p1,
          sphereCurrPointRadius current_point p1 - gap_distance,
          sphereCurrPointRadius current_point p1)) ∧
    (sphereNormalDot current_point p1 current_normal < 0 →
      computeGapRadii .SPHERE current_point p1 p2 gap_distance current_normal =
        .ok (sphereCurrPointRadius current_point p1 + gap_distance,
          sphereCurrPointRadius current_point p1,
          sphereCurrPointRadius current_point p1)) := by
  refine ⟨?_, ?_, ?_, ?_, ?_, ?_⟩ <;> intro h
  · simp [computeGapRadii, h]
  · simp [computeGapRadii, h]
  · simp [computeGapRadii, h, asymm h]
  · simp [computeGapRadii, h]
  · simp [computeGapRadii, h]
  · simp [computeGapRadii, h, asymm h]

/-- Witness for C5: a point on the unit cylinder around the y-axis whose
normal is parallel to the axis has radial/normal dot product 0, and the radius
computation fails. -/
theorem computeGapRadii_spec_witness :
    cylRadDotNorm ⟨1, 0, 0⟩ ⟨0, 0, 0⟩ ⟨0, 1, 0⟩ ⟨0, 1, 0⟩ = 0 ∧
    computeGapRadii .CYLINDER ⟨1, 0, 0⟩ ⟨0, 0, 0⟩ ⟨0, 1, 0⟩ (-1) ⟨0, 1, 0⟩ =
      .error .cylindricalNormals := by
  have h0 : cylRadDotNorm ⟨1, 0, 0⟩ ⟨0, 0, 0⟩ ⟨0, 1, 0⟩ ⟨0, 1, 0⟩ = 0 := by
    norm_num [cylRadDotNorm, cylClosestAxisPoint, Point.sub, Point.dot, Point.normSq,
      Point.add, Point.smul, Point.div]
  exact ⟨h0, (computeGapRadii_spec ⟨1, 0, 0⟩ ⟨0, 0, 0⟩ ⟨0, 1, 0⟩ ⟨0, 1, 0⟩ (-1)).1 h0⟩

/-- Claim C8: in quadrature mode, a missed penetration search yields
`has_info = false`, the sentinel gap distance 88888 and gap temperature 0,
with the warning (naming the unmatched node and its coordinates) emitted
exactly when warnings are enabled, and evaluation continues (a value is
produced, not an error); a match yields the signed search distance and the
weighted interpolation sum over the opposing element's nodes. -/
theorem computeGapValues_quadrature_spec (warnings : Bool)
    (gap_temp_value gap_distance_value : ℝ) (qnode_id processor_id : ℕ)
    (qnode_point : Point) (pinfo : Option PenetrationInfo) (dofIndices : ℕ → List ℕ)
    (solution : ℕ → ℝ) :
    (pinfo = none →
      (computeGapValues true warnings gap_temp_value gap_distance_value qnode_id
          processor_id qnode_point pinfo dofIndices solution).has_info = false ∧
      (computeGapValues true warnings gap_temp_value gap_distance_value qnode_id
          processor_id qnode_point pinfo dofIndices solution).gap_distance = 88888 ∧
      (computeGapValues true warnings gap_temp_value gap_distance_value qnode_id
          processor_id qnode_point pinfo dofIndices solution).gap_temp = 0 ∧
      ((computeGapValues true warnings gap_temp_value gap_distance_value qnode_id
          processor_id qnode_point pinfo dofIndices solution).warning =
          some (qnode_id, processor_id, qnode_point) ↔ warnings = true)) ∧
    (∀ info, pinfo = some info →
      (computeGapValues true warnings gap_temp_value gap_distance_value qnode_id
          processor_id qnode_point pinfo dofIndices solution).has_info = true ∧
      (computeGapValues true warnings gap_temp_value gap_distance_value qnode_id
          processor_id qnode_point pinfo dofIndices solution).gap_distance =
        info.distance ∧
      (computeGapValues true warnings gap_temp_value gap_distance_value qnode_id
          processor_id qnode_point pinfo dofIndices solution).gap_temp =
        ((info.side_phi.zip (dofIndices info.side)).map
          fun wi => wi.1 * solution wi.2).sum ∧
      (computeGapValues true warnings gap_temp_value gap_distance_value qnode_id
          processor_id qnode_point pinfo dofIndices solution).warning = none) := by
  constructor
  · intro h
    subst h
    refine ⟨by simp [computeGapValues], by simp [computeGapValues],
      by norm_num [computeGapValues], ?_⟩
    cases warnings <;> simp [computeGapValues]
  · intro info h
    subst h
    exact ⟨by simp [computeGapValues], by simp [computeGapValues],
      by simp [computeGapValues, gapTempSum], by simp [computeGapValues]⟩

/-- Witness for C8: a concrete unmatched quadrature point with warnings
enabled. -/
theorem computeGapValues_quadrature_spec_witness :
    (computeGapValues true true 0 0 7 2 pOrigin none (fun _ => []) fun _ => 0).has_info =
      false ∧
    (computeGapValues true true 0 0 7 2 pOrigin none (fun _ => []) fun _ => 0).gap_distance =
      88888 ∧
    (computeGapValues true true 0 0 7 2 pOrigin none (fun _ => []) fun _ => 0).gap_temp =
      0 ∧
    ((computeGapValues true true 0 0 7 2 pOrigin none (fun _ => []) fun _ => 0).warning =
      some (7, 2, pOrigin) ↔ true = true) :=
  (computeGapValues_quadrature_spec true 0 0 7 2 pOrigin none (fun _ => [])
    fun _ => 0).1 rfl

end GapCond
